import Mathlib

set_option maxRecDepth 10000

/-!
Verification of the Celestial Position & Visibility Engine
(AstroHack_2025: `planets_api.py`, `astronomy_utils.py`, `neo_api.py`).

Python floats are modelled by `ℚ`; Python exceptions by `Except`/`Option`;
the external Skyfield/astropy ephemeris evaluations by oracle parameters
(record-of-functions arguments).  Every definition is a direct shallow
embedding of the corresponding Python function, with the source file and
line range noted in its doc comment.
-/

/-- Absolute value of a rational, written so the kernel can evaluate it
(Python `abs`). -/
def qabs (q : ℚ) : ℚ := if q < 0 then -q else q

/-- Round-half-even of a rational to an integer (the rounding Python's
`round` and `format` use on exact halves). -/
def rndHalfEven (q : ℚ) : ℤ :=
  let f : ℤ := Rat.floor q
  let r : ℚ := q - f
  if r < 1/2 then f
  else if 1/2 < r then f + 1
  else if f % 2 = 0 then f else f + 1

/-- Python `round(x, 2)`. -/
def round2 (q : ℚ) : ℚ := (rndHalfEven (100 * q) : ℚ) / 100

/-- Python `round(x, 1)`. -/
def round1 (q : ℚ) : ℚ := (rndHalfEven (10 * q) : ℚ) / 10

/-- Python `round(x, 4)`. -/
def round4 (q : ℚ) : ℚ := (rndHalfEven (10000 * q) : ℚ) / 10000

/-- Python's `%` on reals with a positive modulus: `a - b * floor (a / b)`,
always in `[0, b)`. -/
def pymod (a b : ℚ) : ℚ := a - b * (Rat.floor (a / b) : ℚ)

/-- Python `"{x:.1f}"` formatting of a rational: one digit after the
decimal point, rounded half-to-even. -/
def fmt1 (q : ℚ) : String :=
  let n : ℤ := rndHalfEven (10 * q)
  let s : String := toString (n.natAbs / 10) ++ "." ++ toString (n.natAbs % 10)
  if n < 0 then "-" ++ s else s

namespace AstronomyUtils

/-- `astronomy_utils.py` lines 52-62: the `AZIMUTH_DIRECTIONS` dict, in
insertion order. -/
def AZIMUTH_DIRECTIONS : List (ℚ × String) :=
  [(0, "North"), (45, "Northeast"), (90, "East"), (135, "Southeast"),
   (180, "South"), (225, "Southwest"), (270, "West"), (315, "Northwest"),
   (360, "North")]

/-- `AZIMUTH_DIRECTIONS.keys()` in insertion order. -/
def azKeys : List ℚ := AZIMUTH_DIRECTIONS.map Prod.fst

/-- Python `AZIMUTH_DIRECTIONS[q]` for a key of the dict. -/
def azLookup (q : ℚ) : String :=
  ((AZIMUTH_DIRECTIONS.find? (fun p => decide (p.1 = q))).map Prod.snd).getD ""

/-- Python `min(xs, key=f)`: the first element attaining the minimal key
(ties keep the earliest element, as CPython's `min` does). -/
def firstMinBy (f : ℚ → ℚ) : List ℚ → ℚ
  | [] => 0
  | x :: xs => xs.foldl (fun best y => if f y < f best then y else best) x

/-- `astronomy_utils.py` lines 103-147: `is_planet_visible`.
`None` arguments are `Option.none`. -/
def is_planet_visible (altitude : ℚ) (magnitude : Option ℚ)
    (min_altitude : ℚ) (max_magnitude : Option ℚ) : Bool :=
  if altitude < min_altitude then false
  else if (match magnitude, max_magnitude with
           | some m, some mm => decide (mm < m)
           | _, _ => false) then false
  else if (match magnitude with
           | some m =>
             decide (altitude < 10) &&
               (match max_magnitude with
                | some mm => decide (mm < m + (10 - altitude) * 0.2)
                | none => false)
           | none => false) then false
  else true

/-- `astronomy_utils.py` lines 150-179: `get_azimuth_direction`.
`sorted(keys, key=...)` is stable, so its first element is the first
minimal key and its second is the first minimal key of the list with
that element removed. -/
def get_azimuth_direction (azimuth : ℚ) : String :=
  let az := pymod azimuth 360
  let closest_direction := firstMinBy (fun x => qabs (x - az)) azKeys
  if 45/2 < qabs (az - closest_direction) then
    let dir1 := closest_direction
    let dir2 := firstMinBy (fun x => qabs (x - az)) (azKeys.erase closest_direction)
    let p :=
      if (dir2 < dir1 ∧ ¬(270 < dir1 ∧ dir2 < 90)) ∨ (dir1 < 90 ∧ 270 < dir2)
      then (dir2, dir1) else (dir1, dir2)
    azLookup p.1 ++ "-" ++ azLookup p.2
  else
    azLookup closest_direction

/-- `astronomy_utils.py` lines 182-201: `get_altitude_description`. -/
def get_altitude_description (altitude : ℚ) : String :=
  if altitude < 0 then "below the horizon"
  else if altitude < 15 then "low"
  else if altitude < 45 then "at medium height"
  else if altitude < 75 then "high"
  else "almost directly overhead"

/-- `astronomy_utils.py` lines 204-228: `get_sky_position_description`. -/
def get_sky_position_description (altitude azimuth : ℚ)
    (language : String) : String :=
  let direction := get_azimuth_direction azimuth
  let altitude_desc := get_altitude_description altitude
  if language = "en" then
    "looking " ++ direction ++ ", " ++ altitude_desc ++ " (" ++ fmt1 altitude ++ "°)"
  else
    "looking " ++ direction ++ ", " ++ altitude_desc ++ " (" ++ fmt1 altitude ++ "°)"

end AstronomyUtils


/-- A Python `datetime`: an abstract instant plus the presence of
`tzinfo`.  `replace(tzinfo=utc)` keeps the instant identity and sets the
flag. -/
structure PyDateTime where
  epoch : ℤ
  aware : Bool
deriving DecidableEq

/-- `d.replace(tzinfo=utc)` applied when `d.tzinfo is None`
(`planets_api.py` lines 363-364, 370, 520-522). -/
def ensureAware (d : PyDateTime) : PyDateTime := if d.aware then d else ⟨d.epoch, true⟩

/-- The Python name environment a module's cache code runs in: whether the
module imported `hashlib` and `time`.  `planets_api.py` imports both
(lines 29, 33); `astronomy_utils.py` imports neither (lines 27-41), so
there every use of `hashlib.md5` or `time.time()` raises `NameError`. -/
structure ModuleEnv where
  has_hashlib : Bool
  has_time : Bool

/-- `CACHE_ENABLED = True` (`planets_api.py` line 50,
`astronomy_utils.py` line 95). -/
def CACHE_ENABLED : Bool := true

/-- `_generate_cache_key` (`planets_api.py` lines 255-274 and the
textually identical `astronomy_utils.py` lines 383-402):
`f"{func_name}_{hashlib.md5((str(args)+str(sorted(kwargs.items()))).encode()).hexdigest()}"`.
`md5hex` is the md5 hex-digest oracle; `args_str`/`kwargs_str` are the
`str(args)` / `str(sorted(kwargs.items()))` renderings of the argument
tuple.  If the module never imported `hashlib`, evaluating `hashlib.md5`
raises `NameError`. -/
def generate_cache_key (env : ModuleEnv) (md5hex : String → String)
    (func_name args_str kwargs_str : String) : Except String String :=
  if env.has_hashlib then
    Except.ok (func_name ++ "_" ++ md5hex (args_str ++ kwargs_str))
  else
    Except.error "NameError: name hashlib is not defined"

/-- One on-disk cache file: either un-parseable content (a truncated or
partial write, on which `json.load` raises) or a valid payload together
with the `_cache_time` written beside it. -/
inductive CacheFile (V : Type) where
  | corrupt
  | valid (payload : V) (cache_time : ℚ)
deriving DecidableEq

/-- The persisted cache, keyed by cache-key string: `none` when no file
exists for the key (`os.path.exists` is false). -/
def CacheStore (V : Type) : Type := String → Option (CacheFile V)

/-- One call through the `cache_result` wrapper (`planets_api.py` lines
200-252; the same code, with its different module environment and TTL, is
`astronomy_utils.py` lines 327-380).  Returns the value handed to the
caller, the cache store after the call, and whether the wrapped function
was executed.

`serializable result` models whether
`json.dump({'result': result, '_cache_time': time.time()}, f)` succeeds;
it raises `TypeError` when the payload holds values the `json` encoder
rejects (numpy `bool_` fields, in particular).  The read `try` treats an
un-parseable file — or the `NameError` from `time.time()` when the
module lacks `time` — as a caught exception, falling through to
recomputation.  The write `try` first truncates the file (`open` with
mode `'w'`); a failure of `time.time()` or of the dump itself is caught,
but the truncated/partial file remains behind as an un-parseable entry.
Key generation happens outside any `try`/`except`, so its failure
propagates. -/
def cache_result_call {V : Type} (env : ModuleEnv) (cache_duration : ℚ)
    (md5hex : String → String) (func_name args_str kwargs_str : String)
    (serializable : V → Bool) (func : Unit → V) (store : CacheStore V) (now : ℚ) :
    Except String (V × CacheStore V × Bool) :=
  if CACHE_ENABLED = false then Except.ok (func (), store, true)
  else
    match generate_cache_key env md5hex func_name args_str kwargs_str with
    | Except.error e => Except.error e
    | Except.ok cache_key =>
      let hit : Option V :=
        match store cache_key with
        | none => none
        | some CacheFile.corrupt => none
        | some (CacheFile.valid v cache_time) =>
          if env.has_time then
            (if now - cache_time ≤ cache_duration then some v else none)
          else none
      match hit with
      | some v => Except.ok (v, store, false)
      | none =>
        let result := func ()
        let store2 : CacheStore V :=
          if env.has_time && serializable result then
            (fun k => if k = cache_key then some (CacheFile.valid result now) else store k)
          else
            (fun k => if k = cache_key then some CacheFile.corrupt else store k)
        Except.ok (result, store2, true)

namespace PlanetsApi

/-- `planets_api.py` module environment: `import hashlib` (line 29) and
`import time` (line 33) are present. -/
def moduleEnv : ModuleEnv := ⟨true, true⟩

/-- `CACHE_DURATION = 300` (`planets_api.py` line 52). -/
def CACHE_DURATION : ℚ := 300

/-- The `cache_result` wrapper as instantiated in `planets_api.py`:
both `hashlib` and `time` resolve, TTL 300 s. -/
def planets_cache_result_call {V : Type} (md5hex : String → String)
    (func_name args_str kwargs_str : String) (serializable : V → Bool)
    (func : Unit → V) (store : CacheStore V) (now : ℚ) :
    Except String (V × CacheStore V × Bool) :=
  cache_result_call moduleEnv CACHE_DURATION md5hex func_name args_str kwargs_str
    serializable func store now

/-- `rightAscension` dict built by `_format_ra_dec`
(`planets_api.py` lines 302-308). -/
structure RightAscension where
  hours : ℤ
  minutes : ℤ
  seconds : ℚ
  negative : Bool
deriving DecidableEq

/-- `declination` dict built by `_format_ra_dec`
(`planets_api.py` lines 310-316). -/
structure Declination where
  degrees : ℤ
  arcminutes : ℤ
  arcseconds : ℚ
  negative : Bool
deriving DecidableEq

/-- `planets_api.py` lines 277-318: `_format_ra_dec`.  Python `int()` on
the non-negative values produced after `abs` is `floor`. -/
def _format_ra_dec (ra_hours dec_degrees : ℚ) : RightAscension × Declination :=
  let ra_negative := decide (ra_hours < 0)
  let ra_abs := qabs ra_hours
  let ra_hour_part : ℤ := Rat.floor ra_abs
  let ra_minute_part : ℤ := Rat.floor ((ra_abs - ra_hour_part) * 60)
  let ra_second_part : ℚ := ((ra_abs - ra_hour_part) * 60 - ra_minute_part) * 60
  let dec_negative := decide (dec_degrees < 0)
  let dec_abs := qabs dec_degrees
  let dec_degree_part : ℤ := Rat.floor dec_abs
  let dec_arcminute_part : ℤ := Rat.floor ((dec_abs - dec_degree_part) * 60)
  let dec_arcsecond_part : ℚ := ((dec_abs - dec_degree_part) * 60 - dec_arcminute_part) * 60
  (⟨ra_hour_part, ra_minute_part, round2 ra_second_part, ra_negative⟩,
   ⟨dec_degree_part, dec_arcminute_part, round2 dec_arcsecond_part, dec_negative⟩)

/-- One element of the list returned by `get_visible_planets`
(`planets_api.py` lines 431-443). -/
structure PlanetRecord where
  name : String
  altitude : ℚ
  azimuth : ℚ
  magnitude : ℚ
  constellation : String
  rightAscension : Option RightAscension
  declination : Option Declination
deriving DecidableEq

/-- `planets_api.py` lines 410-414: the static fallback magnitude table. -/
def fallback_magnitudes : List (String × ℚ) :=
  [("Mercury", -0.5), ("Venus", -4.2), ("Mars", 1.2),
   ("Jupiter", -2.3), ("Saturn", 0.8), ("Uranus", 5.7), ("Neptune", 7.9)]

/-- `magnitudes.get(name, 0)` (`planets_api.py` line 415). -/
def fallback_magnitude (name : String) : ℚ :=
  ((fallback_magnitudes.find? (fun p => p.1 == name)).map Prod.snd).getD 0

/-- The nine unconditional keys of the `PLANETS` dict, in insertion order
(`planets_api.py` lines 128-138). -/
def core_planets : List String :=
  ["Sun", "Mercury", "Venus", "Mars", "Jupiter", "Saturn", "Uranus", "Neptune", "Moon"]

/-- Oracle for the external Skyfield/astropy computations that
`get_visible_planets` performs per body.  `pos lat lon elev t name` is the
result of `(earth+observer).at(t).observe(planet).apparent()`:
`(alt.degrees, az.degrees, ra.hours, dec.degrees)`; `none` models a
per-body exception (the `except` on lines 447-448, which skips the body).
`planet_magnitude` models the `planetary_magnitude` attempt of lines
404-407 (`none` = the exception caught on line 408).  `constellation_of`
takes `(ra_degrees, dec_degrees)` and models `get_constellation`
including the radian conversion (line 426); `none` is the exception
caught on line 427.  `optional_bodies` is the tail of the `PLANETS` dict:
the bodies beyond the nine core ones that the ephemeris probing of lines
79-184 found available. -/
structure Ephem where
  pos : ℚ → ℚ → ℚ → PyDateTime → String → Option (ℚ × ℚ × ℚ × ℚ)
  planet_magnitude : ℚ → ℚ → ℚ → PyDateTime → String → Option ℚ
  constellation_of : ℚ → ℚ → Option String
  optional_bodies : List String

/-- `time.replace('Z', '+00:00')` (`planets_api.py` line 361). -/
def pyReplaceZ (s : String) : String := s.replace "Z" "+00:00"

/-- `planets_api.py` lines 355-373: resolution of the `time` argument.
`parseIso` models `datetime.fromisoformat` (`none` = `ValueError`);
`now` models `datetime.now(tz=utc)`.  A string that fails to parse is
logged and replaced by `now`; a naive datetime gets UTC attached; `None`
becomes `now`. -/
def resolve_time (parseIso : String → Option PyDateTime) (now : PyDateTime) :
    Option (String ⊕ PyDateTime) → PyDateTime
  | none => now
  | some (Sum.inr d) => ensureAware d
  | some (Sum.inl s) =>
    match parseIso (pyReplaceZ s) with
    | some d => ensureAware d
    | none => now

/-- `planets_api.py` lines 397-415: the per-body magnitude: fixed
constants for Moon and Sun, otherwise the `planetary_magnitude` attempt
with the static fallback table on failure. -/
def body_magnitude (E : Ephem) (lat lon elev : ℚ) (t : PyDateTime)
    (name : String) : ℚ :=
  if name = "Moon" then -12.5
  else if name = "Sun" then -26.7
  else
    match E.planet_magnitude lat lon elev t name with
    | some m => m
    | none => fallback_magnitude name

/-- The per-body loop body of `get_visible_planets`
(`planets_api.py` lines 387-448): `none` when the body raised and was
skipped, otherwise the record appended to `planets_data`. -/
def body_record (E : Ephem) (lat lon elev : ℚ) (t : PyDateTime)
    (show_coords : Bool) (name : String) : Option PlanetRecord :=
  match E.pos lat lon elev t name with
  | none => none
  | some (altitude, azimuth, ra_hours, dec_degrees) =>
    let magnitude : ℚ := body_magnitude E lat lon elev t name
    let constellation := (E.constellation_of (ra_hours * 15) dec_degrees).getD "Unknown"
    let fmt := _format_ra_dec ra_hours dec_degrees
    some ⟨name, round2 altitude, round2 azimuth, round2 magnitude, constellation,
          if show_coords then some fmt.1 else none,
          if show_coords then some fmt.2 else none⟩

/-- `planets_api.py` lines 321-458: `get_visible_planets` (the wrapped
computation inside the `cache_result` decorator).  Defaults: New York
(40.7128, -74.0060, 0 m).  The outer `try`/`except` re-raises as
`APIDataError`; under this model the body itself never raises, so the
result is always `Except.ok`. -/
def get_visible_planets (E : Ephem) (parseIso : String → Option PyDateTime)
    (now : PyDateTime) (latitude longitude elevation : Option ℚ)
    (time : Option (String ⊕ PyDateTime)) (show_coords above_horizon : Bool) :
    Except String (List PlanetRecord) :=
  let lat := latitude.getD 40.7128
  let lon := longitude.getD (-74.0060)
  let elev := elevation.getD 0
  let t := resolve_time parseIso now time
  let planets_data :=
    (core_planets ++ E.optional_bodies).filterMap (body_record E lat lon elev t show_coords)
  let planets_data :=
    if above_horizon then planets_data.filter (fun p => decide (0 < p.altitude))
    else planets_data
  Except.ok planets_data

/-- The dict returned by `get_moon_phase` (`planets_api.py` lines 572-578). -/
structure MoonPhaseInfo where
  date : String
  phase_percent : ℚ
  phase_name : String
  distance_km : ℤ
  angular_diameter_degrees : ℚ
deriving DecidableEq

/-- Oracle for the Skyfield evaluations inside `get_moon_phase`:
ecliptic longitudes of sun and moon at `t`, the moon distance in km, the
`strftime` date rendering, and `2*atan(1737.4/d)*180/pi` (irrational, so
supplied as an oracle of the distance). -/
structure MoonEphem where
  slon : PyDateTime → ℚ
  mlon : PyDateTime → ℚ
  distance_km : PyDateTime → ℚ
  date_string : PyDateTime → String
  angular_diameter : ℚ → ℚ

/-- `planets_api.py` lines 540-546: the raw moon-phase percentage
(before the `round(..., 1)` applied for the returned dict):
fold `(mlon - slon) % 360` into `[0, 180]`, then `/ 180 * 100`. -/
def moon_phase_percent (O : MoonEphem) (t : PyDateTime) : ℚ :=
  let phase_angle := pymod (O.mlon t - O.slon t) 360
  let phase_angle := if 180 < phase_angle then 360 - phase_angle else phase_angle
  phase_angle / 180 * 100

/-- `planets_api.py` lines 548-564: the phase-name ladder applied to the
raw percentage. -/
def moon_phase_name (phase_percent : ℚ) : String :=
  if phase_percent < 1 then "New Moon"
  else if phase_percent < 25 then "Waxing Crescent"
  else if phase_percent < 49 then "First Quarter"
  else if phase_percent < 51 then "First Quarter"
  else if phase_percent < 75 then "Waxing Gibbous"
  else if phase_percent < 99 then "Full Moon"
  else if phase_percent < 100 then "Waning Gibbous"
  else "Last Quarter"

/-- `planets_api.py` lines 517-522: the effective instant of
`get_moon_phase`: `None` becomes `datetime.now(tz=utc)`, a naive
datetime gets UTC attached. -/
def moon_time (time_obj : Option PyDateTime) (now : PyDateTime) : PyDateTime :=
  match time_obj with
  | none => now
  | some d => ensureAware d

/-- `planets_api.py` lines 507-578: `get_moon_phase`. -/
def get_moon_phase (O : MoonEphem) (time_obj : Option PyDateTime)
    (now : PyDateTime) : MoonPhaseInfo :=
  let t := moon_time time_obj now
  let phase_percent := moon_phase_percent O t
  let distance := O.distance_km t
  ⟨O.date_string t, round1 phase_percent, moon_phase_name phase_percent,
   rndHalfEven distance, round4 (O.angular_diameter distance)⟩

end PlanetsApi

namespace AstronomyUtils

/-- `astronomy_utils.py` module environment: its import list (lines
27-41: `math`, `logging`, `os`, `json`, `functools`, `typing`,
`datetime`, `numpy`, `astropy`, `skyfield`) contains neither `hashlib`
nor `time`, although `_generate_cache_key` uses `hashlib.md5` (line 399)
and the wrapper uses `time.time()` (lines 354, 372). -/
def moduleEnv : ModuleEnv := ⟨false, false⟩

/-- `CACHE_DURATION = 3600` (`astronomy_utils.py` line 97). -/
def CACHE_DURATION : ℚ := 3600

/-- The `cache_result` wrapper as instantiated in `astronomy_utils.py`
(lines 327-380): same code as the `planets_api.py` wrapper, but run in a
module namespace without `hashlib` and `time`, with TTL 3600 s. -/
def astro_cache_result_call {V : Type} (md5hex : String → String)
    (func_name args_str kwargs_str : String) (serializable : V → Bool)
    (func : Unit → V) (store : CacheStore V) (now : ℚ) :
    Except String (V × CacheStore V × Bool) :=
  cache_result_call moduleEnv CACHE_DURATION md5hex func_name args_str kwargs_str
    serializable func store now

end AstronomyUtils

namespace NeoApi

/-- The dict returned by `get_neo_visibility` (`neo_api.py` lines
182-185 and 234-240): the not-visible variant carries only `reason`,
the visible variant carries direction, elevation, azimuth and the
disclaimer note. -/
structure NeoVisibility where
  visible : Bool
  reason : Option String
  direction : Option String
  elevation : Option ℤ
  azimuth : Option ℤ
  note : Option String
deriving DecidableEq

/-- `neo_api.py` lines 216-232: the chain mapping the chosen compass
direction to an azimuth for the sky map (default 0). -/
def direction_azimuth (direction : String) : ℤ :=
  if direction = "North" then 0
  else if direction = "Northeast" then 45
  else if direction = "East" then 90
  else if direction = "Southeast" then 135
  else if direction = "South" then 180
  else if direction = "Southwest" then 225
  else if direction = "West" then 270
  else if direction = "Northwest" then 315
  else 0

/-- The disclaimer note of `neo_api.py` line 239. -/
def approximation_note : String :=
  "This is an approximate visibility estimate. Actual visibility depends on many factors including light pollution, weather, and precise orbital calculations."

/-- `neo_api.py` lines 156-240: `get_neo_visibility`.  Dates are day
numbers: `approach_date` is the parsed `close_approach_date`, `today`
is `datetime.now().date()`, so `(approach_date - today).days` is their
difference.  The two `random` draws are modelled by oracle naturals:
`random.choice(possible_directions)` picks index `dirChoice % len`, and
`random.randint(20, 60)` yields `20 + elevChoice % 41`. -/
def get_neo_visibility (approach_date today : ℤ) (latitude : ℚ)
    (dirChoice elevChoice : ℕ) : NeoVisibility :=
  let date_diff : ℕ := (approach_date - today).natAbs
  if 7 < date_diff then
    ⟨false,
     some ("Not visible: approach date is " ++ toString date_diff ++ " days away from today"),
     none, none, none, none⟩
  else
    let is_northern := decide (0 < latitude)
    let possible_directions :=
      if is_northern then
        (if 45 < latitude then ["South", "Southeast", "Southwest"]
         else ["South", "Southeast", "Southwest", "East", "West"])
      else
        (if latitude < -45 then ["North", "Northeast", "Northwest"]
         else ["North", "Northeast", "Northwest", "East", "West"])
    let direction := possible_directions.getD (dirChoice % possible_directions.length) ""
    let elevation : ℤ := 20 + (elevChoice % 41 : ℕ)
    let azimuth := direction_azimuth direction
    ⟨true, none, some direction, some elevation, some azimuth, some approximation_note⟩

end NeoApi

/-- Modelled from the claim: the fixed compass-to-azimuth mapping table
N=0°, NE=45°, E=90°, SE=135°, S=180°, SW=225°, W=270°, NW=315°, used to
check the azimuth returned by `get_neo_visibility` against the compass
direction it returns. -/
def canonical_azimuths : List (String × ℤ) :=
  [("North", 0), ("Northeast", 45), ("East", 90), ("Southeast", 135),
   ("South", 180), ("Southwest", 225), ("West", 270), ("Northwest", 315)]

/-- Concrete parser instance for witnesses: an ISO parser that rejects
every string (`datetime.fromisoformat` raising `ValueError`). -/
def parse0 : String → Option PyDateTime := fun _ => none

/-- Concrete instant for witnesses: an aware `datetime.now(tz=utc)`. -/
def now0 : PyDateTime := ⟨0, true⟩

/-- Concrete ephemeris oracle for witnesses: every body resolves to
altitude 10°, azimuth 20°, RA 3 h, Dec 5°; `planetary_magnitude` always
fails (falling back to the static table); constellation lookup always
fails ("Unknown"); no optional bodies were found at load time. -/
def E0 : PlanetsApi.Ephem :=
  ⟨fun _ _ _ _ _ => some (10, 20, 3, 5), fun _ _ _ _ _ => none, fun _ _ => none, []⟩

/-- The unfiltered record list `get_visible_planets` computes for the
`E0`/`parse0`/`now0` instance with all arguments defaulted. -/
def c7list : List PlanetsApi.PlanetRecord :=
  (PlanetsApi.get_visible_planets E0 parse0 now0 none none none none false false).toOption.getD []

/-- Whether `json.dump` succeeds on a `get_visible_planets` payload.
The encoder accepts the `str` fields and the `float` fields (skyfield's
numpy floats subclass Python `float`), but the `negative` entries of a
`rightAscension`/`declination` dict are numpy `bool_` values —
`numpy.bool_` is not a subclass of Python's final `bool` — and
`json.dump` raises `TypeError` on them.  So a payload serializes exactly
when none of its records carry the coordinate dicts, i.e. when the call
was made with `show_coords=False`. -/
def json_serializable (l : List PlanetsApi.PlanetRecord) : Bool :=
  l.all (fun r => r.rightAscension.isNone && r.declination.isNone)

/-- The `show_coords=True` payload of the concrete `E0` run: every
record carries the coordinate dicts with their numpy-bool `negative`
fields. -/
def c1payload : List PlanetsApi.PlanetRecord :=
  (PlanetsApi.get_visible_planets E0 parse0 now0 none none none none true false).toOption.getD []

/-- The wrapped computation of the failing input: `get_visible_planets`
with `show_coords=True` and fixed remaining arguments. -/
def c1func : Unit → List PlanetsApi.PlanetRecord := fun _ => c1payload

/-- Cold cache store for the cache theorems. -/
def c1store0 : CacheStore (List PlanetsApi.PlanetRecord) := fun _ => none

/-- First call through the `planets_api` cache wrapper at time 0 with a
cold store. -/
def c1call1 : Except String
    (List PlanetsApi.PlanetRecord × CacheStore (List PlanetsApi.PlanetRecord) × Bool) :=
  PlanetsApi.planets_cache_result_call id "get_visible_planets" "()"
    "[(above_horizon, False), (show_coords, True)]" json_serializable c1func c1store0 0

/-- Outcome of the first cache call. -/
def c1out1 : List PlanetsApi.PlanetRecord × CacheStore (List PlanetsApi.PlanetRecord) × Bool :=
  c1call1.toOption.getD ([], c1store0, false)

/-- Second call with identical arguments at time 100 (within the 300 s
TTL), against the store left by the first call. -/
def c1call2 : Except String
    (List PlanetsApi.PlanetRecord × CacheStore (List PlanetsApi.PlanetRecord) × Bool) :=
  PlanetsApi.planets_cache_result_call id "get_visible_planets" "()"
    "[(above_horizon, False), (show_coords, True)]" json_serializable c1func c1out1.2.1 100

/-- Outcome of the second cache call. -/
def c1out2 : List PlanetsApi.PlanetRecord × CacheStore (List PlanetsApi.PlanetRecord) × Bool :=
  c1call2.toOption.getD ([], c1store0, false)

/-- Concrete moon oracle with sun and moon at the same ecliptic
longitude: raw phase percentage 0. -/
def moonO0 : PlanetsApi.MoonEphem :=
  ⟨fun _ => 0, fun _ => 0, fun _ => 384400, fun _ => "2025-10-12", fun _ => 1/2⟩

/-- Concrete moon oracle with the moon 90° ahead of the sun: raw phase
percentage 50. -/
def moonO50 : PlanetsApi.MoonEphem :=
  ⟨fun _ => 0, fun _ => 90, fun _ => 384400, fun _ => "2025-10-12", fun _ => 1/2⟩

/-- Concrete moon oracle with the moon 180° ahead of the sun: raw phase
percentage 100. -/
def moonO100 : PlanetsApi.MoonEphem :=
  ⟨fun _ => 0, fun _ => 180, fun _ => 384400, fun _ => "2025-10-12", fun _ => 1/2⟩

namespace AstronomyUtils

/-- Characterization of `is_planet_visible` with a magnitude but no
magnitude limit: only the horizon check applies. -/
lemma vis_none_iff (alt m minA : ℚ) :
    is_planet_visible alt (some m) minA none = true ↔ minA ≤ alt := by
  unfold is_planet_visible
  rcases lt_or_le alt minA with h | h
  · rw [if_pos h]; simp; linarith
  · rw [if_neg (not_lt.mpr h)]; simp [h]

/-- Characterization of `is_planet_visible` with both a magnitude and a
magnitude limit: horizon check, raw magnitude check, and the
atmospheric-extinction check below 10 degrees. -/
lemma vis_some_iff (alt m minA mm : ℚ) :
    is_planet_visible alt (some m) minA (some mm) = true ↔
      (minA ≤ alt ∧ m ≤ mm ∧ (alt < 10 → m + (10 - alt) * 0.2 ≤ mm)) := by
  unfold is_planet_visible
  rcases lt_or_le alt minA with h | h
  · rw [if_pos h]; simp; intro h'; exfalso; linarith
  · rw [if_neg (not_lt.mpr h)]
    rcases lt_or_le mm m with h2 | h2
    · rw [if_pos (by simpa using h2)]
      simp; intro _ h'; exfalso; linarith
    · rw [if_neg (by simpa using not_lt.mpr h2)]
      rcases lt_or_le alt (10 : ℚ) with h3 | h3
      · rcases lt_or_le mm (m + (10 - alt) * 0.2) with h4 | h4
        · rw [if_pos (by simp [h3, h4])]
          simp
          intro _ _
          exact ⟨h3, h4⟩
        · rw [if_neg (by simp; intro _; linarith)]
          simp [h, h2]
          intro _; linarith
      · rw [if_neg (by simp; intro h'; exfalso; linarith)]
        simp [h, h2]
        intro h'; exfalso; linarith

end AstronomyUtils

/-- C2, counterexample: the claim predicts that azimuth 45 yields the
hyphenated composite "North-East"; in fact 45 is itself a principal
compass point and `get_azimuth_direction 45` is the single label
"Northeast". -/
theorem claim_C2_counterexample :
    AstronomyUtils.get_azimuth_direction 45 = "Northeast" ∧
    AstronomyUtils.get_azimuth_direction 45 ≠ "North-East" := by
  with_unfolding_all decide

/-- C2, amended: `get_azimuth_direction` maps 0 to "North", 90 to
"East", and 45 to the single principal-point label "Northeast" (not a
hyphenated composite, since 45 is exactly the Northeast key of
`AZIMUTH_DIRECTIONS`). -/
theorem claim_C2_azimuth_direction :
    AstronomyUtils.get_azimuth_direction 0 = "North" ∧
    AstronomyUtils.get_azimuth_direction 90 = "East" ∧
    AstronomyUtils.get_azimuth_direction 45 = "Northeast" := by
  with_unfolding_all decide

/-- C6: `is_planet_visible` is monotone for fixed `min_altitude` and
`max_magnitude`: raising the altitude and lowering (brightening) the
magnitude never turns a visible body invisible. -/
theorem claim_C6_visibility_monotone (min_altitude : ℚ) (max_magnitude : Option ℚ)
    (altitude mag altitude' mag' : ℚ)
    (hvis : AstronomyUtils.is_planet_visible altitude (some mag) min_altitude max_magnitude = true)
    (halt : altitude ≤ altitude') (hmag : mag' ≤ mag) :
    AstronomyUtils.is_planet_visible altitude' (some mag') min_altitude max_magnitude = true := by
  cases max_magnitude with
  | none =>
    rw [AstronomyUtils.vis_none_iff] at hvis ⊢; linarith
  | some mm =>
    rw [AstronomyUtils.vis_some_iff] at hvis ⊢
    obtain ⟨h1, h2, h3⟩ := hvis
    refine ⟨by linarith, by linarith, fun h10 => ?_⟩
    have := h3 (by linarith)
    nlinarith

/-- C6, witness: a body visible at altitude 5 and magnitude 1 under
limit 3 stays visible at altitude 20 and magnitude 0. -/
theorem claim_C6_visibility_monotone_witness :
    AstronomyUtils.is_planet_visible 5 (some 1) 0 (some 3) = true ∧
    AstronomyUtils.is_planet_visible 20 (some 0) 0 (some 3) = true :=
  ⟨by with_unfolding_all decide,
   claim_C6_visibility_monotone 0 (some 3) 5 1 20 0
     (by with_unfolding_all decide) (by norm_num) (by norm_num)⟩

/-- C9: `get_sky_position_description` composes
`"looking {direction}, {band} ({altitude:.1f}°)"` from
`get_azimuth_direction` and the altitude band, and the band is
"below the horizon" below 0, "low" on [0,15), "at medium height" on
[15,45), "high" on [45,75), and "almost directly overhead" above 75. -/
theorem claim_C9_sky_position (altitude azimuth : ℚ) :
    AstronomyUtils.get_sky_position_description altitude azimuth "en" =
      "looking " ++ AstronomyUtils.get_azimuth_direction azimuth ++ ", " ++
        AstronomyUtils.get_altitude_description altitude ++ " (" ++ fmt1 altitude ++ "°)" ∧
    (altitude < 0 → AstronomyUtils.get_altitude_description altitude = "below the horizon") ∧
    (0 ≤ altitude → altitude < 15 → AstronomyUtils.get_altitude_description altitude = "low") ∧
    (15 ≤ altitude → altitude < 45 → AstronomyUtils.get_altitude_description altitude = "at medium height") ∧
    (45 ≤ altitude → altitude < 75 → AstronomyUtils.get_altitude_description altitude = "high") ∧
    (75 < altitude → AstronomyUtils.get_altitude_description altitude = "almost directly overhead") := by
  refine ⟨rfl, ?_, ?_, ?_, ?_, ?_⟩ <;>
    (unfold AstronomyUtils.get_altitude_description; intros; split_ifs <;> first | rfl | linarith)

/-- C9, witness: at altitude 30 and azimuth 135 the description is the
claimed composition, and the band is "at medium height". -/
theorem claim_C9_sky_position_witness :
    AstronomyUtils.get_sky_position_description 30 135 "en" =
      "looking " ++ AstronomyUtils.get_azimuth_direction 135 ++ ", " ++
        AstronomyUtils.get_altitude_description 30 ++ " (" ++ fmt1 30 ++ "°)" ∧
    AstronomyUtils.get_altitude_description 30 = "at medium height" :=
  ⟨(claim_C9_sky_position 30 135).1,
   (claim_C9_sky_position 30 135).2.2.2.1 (by norm_num) (by norm_num)⟩

namespace PlanetsApi

/-- `round(−26.7, 2)` is `−26.7` exactly. -/
lemma round2_neg267 : round2 (-26.7) = -26.7 := by with_unfolding_all decide

/-- `round(−12.5, 2)` is `−12.5` exactly. -/
lemma round2_neg125 : round2 (-12.5) = -12.5 := by with_unfolding_all decide

/-- The Sun's magnitude is the fixed constant −26.7, whatever the
`planetary_magnitude` oracle does. -/
lemma body_magnitude_sun (E : Ephem) (lat lon elev : ℚ) (t : PyDateTime) :
    body_magnitude E lat lon elev t "Sun" = -26.7 := by
  unfold body_magnitude
  rw [if_neg (by decide), if_pos rfl]

/-- The Moon's magnitude is the fixed constant −12.5. -/
lemma body_magnitude_moon (E : Ephem) (lat lon elev : ℚ) (t : PyDateTime) :
    body_magnitude E lat lon elev t "Moon" = -12.5 := by
  unfold body_magnitude
  rw [if_pos rfl]

/-- A record produced by the per-body loop carries the catalog name it
was produced for. -/
lemma body_record_name (E : Ephem) (lat lon elev : ℚ) (t : PyDateTime) (sc : Bool)
    (name : String) (r : PlanetRecord)
    (h : body_record E lat lon elev t sc name = some r) : r.name = name := by
  unfold body_record at h
  cases hpos : E.pos lat lon elev t name with
  | none => rw [hpos] at h; exact absurd h (by simp)
  | some q =>
    obtain ⟨alt, az, ra, dec⟩ := q
    rw [hpos] at h
    simp only [Option.some.injEq] at h
    subst h
    rfl

/-- A record produced by the per-body loop carries the rounded
`body_magnitude` of its name. -/
lemma body_record_magnitude (E : Ephem) (lat lon elev : ℚ) (t : PyDateTime) (sc : Bool)
    (name : String) (r : PlanetRecord)
    (h : body_record E lat lon elev t sc name = some r) :
    r.magnitude = round2 (body_magnitude E lat lon elev t name) := by
  unfold body_record at h
  cases hpos : E.pos lat lon elev t name with
  | none => rw [hpos] at h; exact absurd h (by simp)
  | some q =>
    obtain ⟨alt, az, ra, dec⟩ := q
    rw [hpos] at h
    simp only [Option.some.injEq] at h
    subst h
    rfl

/-- When the position oracle succeeds for a body, the per-body loop
produces a record for it (named after it). -/
lemma body_record_of_pos (E : Ephem) (lat lon elev : ℚ) (t : PyDateTime) (sc : Bool)
    (name : String) (q : ℚ × ℚ × ℚ × ℚ)
    (hpos : E.pos lat lon elev t name = some q) :
    ∃ r, body_record E lat lon elev t sc name = some r ∧ r.name = name := by
  obtain ⟨alt, az, ra, dec⟩ := q
  unfold body_record
  rw [hpos]
  exact ⟨_, rfl, rfl⟩

end PlanetsApi

/-- A direction drawn by index from a list of compass points that all
appear in the canonical table is, together with its
`direction_azimuth`, an entry of the canonical table. -/
lemma neo_choice_canonical (l : List String) (hne : l ≠ [])
    (hl : ∀ d ∈ l, (d, NeoApi.direction_azimuth d) ∈ canonical_azimuths) (n : ℕ) :
    ∃ d az, (d, az) ∈ canonical_azimuths ∧ l.getD (n % l.length) "" = d ∧
      NeoApi.direction_azimuth (l.getD (n % l.length) "") = az := by
  have hlen : n % l.length < l.length := Nat.mod_lt _ (List.length_pos.mpr hne)
  rw [List.getD_eq_getElem l "" hlen]
  exact ⟨_, _, hl _ (List.getElem_mem hlen), rfl, rfl⟩

/-- Through the `planets_api` `cache_result` wrapper, two calls with
identical function and argument strings, a cold store, and the second
call within the 300 s TTL run the wrapped computation exactly once and
hand equal results to both callers — PROVIDED the payload serializes.
This is the intent the round-trip claim states; it fails on the program
only because `show_coords=True` payloads do not serialize. -/
lemma cache_round_trip_of_serializable {V : Type} (md5hex : String → String)
    (func_name args_str kwargs_str : String) (serializable : V → Bool)
    (func : Unit → V) (store0 : CacheStore V) (now1 now2 : ℚ)
    (out1 out2 : V × CacheStore V × Bool)
    (hser : serializable (func ()) = true)
    (hcold : store0 (func_name ++ "_" ++ md5hex (args_str ++ kwargs_str)) = none)
    (httl : now2 - now1 ≤ PlanetsApi.CACHE_DURATION)
    (h1 : PlanetsApi.planets_cache_result_call md5hex func_name args_str kwargs_str
      serializable func store0 now1 = Except.ok out1)
    (h2 : PlanetsApi.planets_cache_result_call md5hex func_name args_str kwargs_str
      serializable func out1.2.1 now2 = Except.ok out2) :
    out1.1 = out2.1 ∧ out1.2.2 = true ∧ out2.2.2 = false := by
  simp [PlanetsApi.planets_cache_result_call, cache_result_call, generate_cache_key,
    PlanetsApi.moduleEnv, CACHE_ENABLED, hcold, hser] at h1
  subst h1
  simp [PlanetsApi.planets_cache_result_call, cache_result_call, generate_cache_key,
    PlanetsApi.moduleEnv, CACHE_ENABLED, httl, hser] at h2
  subst h2
  exact ⟨rfl, rfl, rfl⟩

/-- C1: contrary to the claim, for `show_coords=True` argument tuples of
`get_visible_planets` the wrapped computation runs on BOTH calls even
though the second falls within the 300 s TTL of the first: `json.dump`
raises `TypeError` on the numpy-bool `negative` fields of the records'
coordinate dicts, the write `try` swallows it leaving only a
truncated/partial file, and the second call's `json.load` fails, is
caught, and the call recomputes.  Both calls still return equal results
— by recomputation, not through the cache. -/
theorem claim_C1_cache_write_failure_recomputes :
    c1out1.2.2 = true ∧ c1out2.2.2 = true ∧ c1out1.1 = c1out2.1 := by
  with_unfolding_all decide

/-- C3: `get_neo_visibility` reports not-visible with the day-gap reason
string whenever the approach date is more than 7 days from today, and
otherwise reports visible with an azimuth that is exactly the canonical
azimuth of the compass direction it returns (whatever the random draws
are). -/
theorem claim_C3_neo_visibility (approach_date today : ℤ) (latitude : ℚ)
    (dirChoice elevChoice : ℕ) :
    (7 < (approach_date - today).natAbs →
      (NeoApi.get_neo_visibility approach_date today latitude dirChoice elevChoice).visible = false ∧
      (NeoApi.get_neo_visibility approach_date today latitude dirChoice elevChoice).reason =
        some ("Not visible: approach date is " ++ toString (approach_date - today).natAbs ++
          " days away from today")) ∧
    ((approach_date - today).natAbs ≤ 7 →
      (NeoApi.get_neo_visibility approach_date today latitude dirChoice elevChoice).visible = true ∧
      ∃ d az, (d, az) ∈ canonical_azimuths ∧
        (NeoApi.get_neo_visibility approach_date today latitude dirChoice elevChoice).direction = some d ∧
        (NeoApi.get_neo_visibility approach_date today latitude dirChoice elevChoice).azimuth = some az) := by
  constructor
  · intro hgt
    unfold NeoApi.get_neo_visibility
    rw [if_pos hgt]
    exact ⟨rfl, rfl⟩
  · intro hle
    unfold NeoApi.get_neo_visibility
    rw [if_neg (not_lt.mpr hle)]
    refine ⟨rfl, ?_⟩
    by_cases h0 : (0 : ℚ) < latitude
    · by_cases h45 : (45 : ℚ) < latitude
      · simp only [h0, h45, decide_True, if_true]
        obtain ⟨d, az, hmem, hd, haz⟩ :=
          neo_choice_canonical ["South", "Southeast", "Southwest"] (by simp)
            (by decide) dirChoice
        exact ⟨d, az, hmem, congrArg some hd, congrArg some haz⟩
      · simp only [h0, h45, decide_True, decide_False, if_true, if_false]
        obtain ⟨d, az, hmem, hd, haz⟩ :=
          neo_choice_canonical ["South", "Southeast", "Southwest", "East", "West"] (by simp)
            (by decide) dirChoice
        exact ⟨d, az, hmem, congrArg some hd, congrArg some haz⟩
    · by_cases h45 : latitude < (-45 : ℚ)
      · simp only [h0, h45, decide_True, decide_False, if_true, if_false]
        obtain ⟨d, az, hmem, hd, haz⟩ :=
          neo_choice_canonical ["North", "Northeast", "Northwest"] (by simp)
            (by decide) dirChoice
        exact ⟨d, az, hmem, congrArg some hd, congrArg some haz⟩
      · simp only [h0, h45, decide_True, decide_False, if_true, if_false]
        obtain ⟨d, az, hmem, hd, haz⟩ :=
          neo_choice_canonical ["North", "Northeast", "Northwest", "East", "West"] (by simp)
            (by decide) dirChoice
        exact ⟨d, az, hmem, congrArg some hd, congrArg some haz⟩

/-- C3, witness: an approach today (day 0) at latitude 40 is visible; an
approach 10 days out is not. -/
theorem claim_C3_neo_visibility_witness :
    (NeoApi.get_neo_visibility 0 0 40 0 0).visible = true ∧
    (NeoApi.get_neo_visibility 10 0 40 0 0).visible = false :=
  ⟨((claim_C3_neo_visibility 0 0 40 0 0).2 (by decide)).1,
   ((claim_C3_neo_visibility 10 0 40 0 0).1 (by decide)).1⟩

/-- C4, counterexample: the claim predicts a malformed time string fails
the request; in fact `get_visible_planets` on the unparseable string
"not-a-time" succeeds, and returns exactly what a call with no time
argument returns — the string was silently replaced by the current
time. -/
theorem claim_C4_counterexample :
    (PlanetsApi.get_visible_planets E0 parse0 now0 none none none
        (some (Sum.inl "not-a-time")) false false).isOk = true ∧
    PlanetsApi.get_visible_planets E0 parse0 now0 none none none
        (some (Sum.inl "not-a-time")) false false =
      PlanetsApi.get_visible_planets E0 parse0 now0 none none none none false false :=
  ⟨rfl, rfl⟩

/-- C4, amended: a time string `datetime.fromisoformat` rejects never
raises out of `get_visible_planets`; the call behaves exactly as if no
time had been passed (a warning is logged and the current time is
used). -/
theorem claim_C4_time_fallback (E : PlanetsApi.Ephem)
    (parseIso : String → Option PyDateTime) (now : PyDateTime)
    (lat lon elev : Option ℚ) (s : String) (sc ah : Bool)
    (hbad : parseIso (PlanetsApi.pyReplaceZ s) = none) :
    PlanetsApi.get_visible_planets E parseIso now lat lon elev (some (Sum.inl s)) sc ah =
      PlanetsApi.get_visible_planets E parseIso now lat lon elev none sc ah := by
  unfold PlanetsApi.get_visible_planets
  simp only [PlanetsApi.resolve_time, hbad]

/-- C4, witness: the amended statement applied to the concrete rejecting
parser and the string "not-a-time". -/
theorem claim_C4_time_fallback_witness :
    PlanetsApi.get_visible_planets E0 parse0 now0 none none none
        (some (Sum.inl "not-a-time")) true true =
      PlanetsApi.get_visible_planets E0 parse0 now0 none none none none true true :=
  claim_C4_time_fallback E0 parse0 now0 none none none "not-a-time" true true rfl

/-- C5: contrary to the claim, a cache-layer failure does propagate: in
`astronomy_utils.py` the key generation (run outside any `try`/`except`)
raises `NameError` because the module never imports `hashlib`, so a call
through its `cache_result` wrapper surfaces the error instead of
returning the wrapped computation's result (here: a computation
returning 0 that is never reached). -/
theorem claim_C5_astro_cache_keygen_raises :
    AstronomyUtils.astro_cache_result_call id "calculate_twilight_times"
      "(40.7128, -74.006)" "[]" (fun _ => true) (fun _ => (0 : ℕ)) (fun _ => none) 0 =
      Except.error "NameError: name hashlib is not defined" := rfl

/-- C7: in every list `get_visible_planets` returns, a record named
"Sun" has magnitude exactly −26.7 and a record named "Moon" has
magnitude exactly −12.5; and with `above_horizon = false`, whenever the
ephemeris yields positions for Sun and Moon (whatever their altitudes),
records for both appear in the result. -/
theorem claim_C7_sun_moon_magnitudes (E : PlanetsApi.Ephem)
    (parseIso : String → Option PyDateTime)
    (now : PyDateTime) (lat lon elev : Option ℚ) (tm : Option (String ⊕ PyDateTime))
    (sc ah : Bool) (l : List PlanetsApi.PlanetRecord)
    (h : PlanetsApi.get_visible_planets E parseIso now lat lon elev tm sc ah = Except.ok l) :
    (∀ r ∈ l, r.name = "Sun" → r.magnitude = -26.7) ∧
    (∀ r ∈ l, r.name = "Moon" → r.magnitude = -12.5) ∧
    (ah = false →
      ((E.pos (lat.getD 40.7128) (lon.getD (-74.0060)) (elev.getD 0)
          (PlanetsApi.resolve_time parseIso now tm) "Sun").isSome = true →
        ∃ r ∈ l, r.name = "Sun") ∧
      ((E.pos (lat.getD 40.7128) (lon.getD (-74.0060)) (elev.getD 0)
          (PlanetsApi.resolve_time parseIso now tm) "Moon").isSome = true →
        ∃ r ∈ l, r.name = "Moon")) := by
  simp only [PlanetsApi.get_visible_planets, Except.ok.injEq] at h
  subst h
  set lat' := lat.getD 40.7128 with hlat
  set lon' := lon.getD (-74.0060) with hlon
  set elev' := elev.getD 0 with helev
  set t := PlanetsApi.resolve_time parseIso now tm with ht
  set fm := (PlanetsApi.core_planets ++ E.optional_bodies).filterMap
    (PlanetsApi.body_record E lat' lon' elev' t sc) with hfm
  have hsub : ∀ r, r ∈ (if ah then fm.filter (fun p => decide (0 < p.altitude)) else fm) →
      r ∈ fm := by
    intro r hr
    cases ah with
    | true => simp at hr; exact hr.1
    | false => simpa using hr
  refine ⟨?_, ?_, ?_⟩
  · intro r hr hname
    obtain ⟨name, hmm, hbody⟩ := List.mem_filterMap.mp (hsub r hr)
    have : name = "Sun" := by
      rw [← PlanetsApi.body_record_name E lat' lon' elev' t sc name r hbody, hname]
    subst this
    rw [PlanetsApi.body_record_magnitude E lat' lon' elev' t sc _ r hbody,
      PlanetsApi.body_magnitude_sun, PlanetsApi.round2_neg267]
  · intro r hr hname
    obtain ⟨name, hmm, hbody⟩ := List.mem_filterMap.mp (hsub r hr)
    have : name = "Moon" := by
      rw [← PlanetsApi.body_record_name E lat' lon' elev' t sc name r hbody, hname]
    subst this
    rw [PlanetsApi.body_record_magnitude E lat' lon' elev' t sc _ r hbody,
      PlanetsApi.body_magnitude_moon, PlanetsApi.round2_neg125]
  · intro hah
    subst hah
    simp only [Bool.false_eq_true, if_false]
    constructor
    · intro hsome
      obtain ⟨q, hq⟩ := Option.isSome_iff_exists.mp hsome
      obtain ⟨r, hbody, hname⟩ :=
        PlanetsApi.body_record_of_pos E lat' lon' elev' t sc "Sun" q hq
      exact ⟨r, List.mem_filterMap.mpr ⟨"Sun",
        List.mem_append_left _ (by simp [PlanetsApi.core_planets]), hbody⟩, hname⟩
    · intro hsome
      obtain ⟨q, hq⟩ := Option.isSome_iff_exists.mp hsome
      obtain ⟨r, hbody, hname⟩ :=
        PlanetsApi.body_record_of_pos E lat' lon' elev' t sc "Moon" q hq
      exact ⟨r, List.mem_filterMap.mpr ⟨"Moon",
        List.mem_append_left _ (by simp [PlanetsApi.core_planets]), hbody⟩, hname⟩

/-- C7, witness: on the concrete `E0` run with `above_horizon = false`,
the output list contains a Sun record with magnitude −26.7 and a Moon
record with magnitude −12.5. -/
theorem claim_C7_sun_moon_magnitudes_witness :
    c7list.any (fun r => r.name == "Sun" && decide (r.magnitude = -26.7)) = true ∧
    c7list.any (fun r => r.name == "Moon" && decide (r.magnitude = -12.5)) = true := by
  have h := claim_C7_sun_moon_magnitudes E0 parse0 now0 none none none none false false
    c7list rfl
  obtain ⟨hs, hm, hex⟩ := h
  obtain ⟨rs, hrs, hrsname⟩ := (hex rfl).1 rfl
  obtain ⟨rm, hrm, hrmname⟩ := (hex rfl).2 rfl
  refine ⟨List.any_eq_true.mpr ⟨rs, hrs, ?_⟩, List.any_eq_true.mpr ⟨rm, hrm, ?_⟩⟩
  · simp [hrsname, hs rs hrs hrsname]
  · simp [hrmname, hm rm hrm hrmname]

/-- C8: the phase-name ladder of `get_moon_phase`, applied to the raw
phase percentage: 0 yields "New Moon"; 50 yields "First Quarter" (and so
does the whole band from 49 inclusive up to 51 exclusive); 100 yields
"Last Quarter". -/
theorem claim_C8_moon_phase_boundaries (O : PlanetsApi.MoonEphem)
    (time_obj : Option PyDateTime) (now : PyDateTime) :
    (PlanetsApi.moon_phase_percent O (PlanetsApi.moon_time time_obj now) = 0 →
      (PlanetsApi.get_moon_phase O time_obj now).phase_name = "New Moon") ∧
    (PlanetsApi.moon_phase_percent O (PlanetsApi.moon_time time_obj now) = 50 →
      (PlanetsApi.get_moon_phase O time_obj now).phase_name = "First Quarter") ∧
    (49 ≤ PlanetsApi.moon_phase_percent O (PlanetsApi.moon_time time_obj now) →
      PlanetsApi.moon_phase_percent O (PlanetsApi.moon_time time_obj now) < 51 →
      (PlanetsApi.get_moon_phase O time_obj now).phase_name = "First Quarter") ∧
    (PlanetsApi.moon_phase_percent O (PlanetsApi.moon_time time_obj now) = 100 →
      (PlanetsApi.get_moon_phase O time_obj now).phase_name = "Last Quarter") := by
  set p := PlanetsApi.moon_phase_percent O (PlanetsApi.moon_time time_obj now) with hp
  have hname : (PlanetsApi.get_moon_phase O time_obj now).phase_name =
      PlanetsApi.moon_phase_name p := rfl
  rw [hname]
  refine ⟨fun h => ?_, fun h => ?_, fun h1 h2 => ?_, fun h => ?_⟩ <;>
    (unfold PlanetsApi.moon_phase_name; split_ifs <;> first | rfl | linarith)

/-- C8, witness: the three boundary values realized by concrete oracles
(sun/moon aligned, 90° apart, 180° apart). -/
theorem claim_C8_moon_phase_boundaries_witness :
    (PlanetsApi.get_moon_phase moonO0 none now0).phase_name = "New Moon" ∧
    (PlanetsApi.get_moon_phase moonO50 none now0).phase_name = "First Quarter" ∧
    (PlanetsApi.get_moon_phase moonO100 none now0).phase_name = "Last Quarter" :=
  ⟨(claim_C8_moon_phase_boundaries moonO0 none now0).1 (by with_unfolding_all decide),
   (claim_C8_moon_phase_boundaries moonO50 none now0).2.1 (by with_unfolding_all decide),
   (claim_C8_moon_phase_boundaries moonO100 none now0).2.2.2 (by with_unfolding_all decide)⟩

/-- C10: omitted observer coordinates never fail: `get_visible_planets`
substitutes the New York defaults (latitude 40.7128, longitude −74.0060,
elevation 0), so any call equals the call with the defaulted values
passed explicitly. -/
theorem claim_C10_default_location (E : PlanetsApi.Ephem)
    (parseIso : String → Option PyDateTime) (now : PyDateTime)
    (lat lon elev : Option ℚ) (tm : Option (String ⊕ PyDateTime)) (sc ah : Bool) :
    PlanetsApi.get_visible_planets E parseIso now lat lon elev tm sc ah =
      PlanetsApi.get_visible_planets E parseIso now (some (lat.getD 40.7128))
        (some (lon.getD (-74.0060))) (some (elev.getD 0)) tm sc ah := rfl
